import Mathlib

/-!
Verification development for the EVBox HomeLine stand-alone project
(files `frame.py`, `packet.py`, `manager.py`, `main.py`, `config.py`).

Bytes are modelled as `Nat` (values 0..255 on the wire), Python `str`
values as `List Char`, and Python `datetime` instants as `Nat`
milliseconds since 2000-01-01.  Fallible Python code (statements that can
raise `ValueError`) is modelled with `Option`.
-/

/-- Python slice `l[a:b]` for non-negative `a`, `b`. -/
def pySlice {α : Type} (l : List α) (a b : Nat) : List α :=
  (l.drop a).take (b - a)

/-- Value of a single hexadecimal digit character, as accepted by
Python `bytes.fromhex`. -/
def hexCharVal (c : Char) : Option Nat :=
  let n := c.toNat
  if 48 ≤ n ∧ n ≤ 57 then some (n - 48)
  else if 65 ≤ n ∧ n ≤ 70 then some (n - 55)
  else if 97 ≤ n ∧ n ≤ 102 then some (n - 87)
  else none

/-- Python `int.from_bytes(bytes.fromhex(s))` (big endian): `none` models
the `ValueError` raised on an odd number of digits or a non-hex digit;
the empty string yields `0`.  (ASCII spaces between byte pairs, which
`bytes.fromhex` would skip, are not modelled: the protocol character set
excludes the space character.) -/
def pyFromHex (l : List Char) : Option Nat :=
  if l.length % 2 = 0 then
    l.foldl (fun acc c => acc.bind fun a => (hexCharVal c).map fun v => a * 16 + v) (some 0)
  else none

/-- Uppercase hexadecimal digit character for a value below 16. -/
def hexChar (n : Nat) : Char :=
  if n < 10 then Char.ofNat (48 + n) else Char.ofNat (55 + n)

/-- Hexadecimal digits of `n` (most significant first), fuel-based so that
the definition is structurally recursive and kernel-evaluable. -/
def hexDigitsAux : Nat → Nat → List Char
  | 0, _ => []
  | fuel + 1, n => if n = 0 then [] else hexDigitsAux fuel (n / 16) ++ [hexChar (n % 16)]

/-- Uppercase hexadecimal rendering of `n`, as Python `format(n, "X")`. -/
def pyHexUpper (n : Nat) : List Char :=
  if n = 0 then ['0'] else hexDigitsAux n n

/-- Python `f-string` formatting `{n:0wX}`: uppercase hex, left-padded
with '0' to a minimal width `w`. -/
def pyHexPad (w : Nat) (n : Nat) : List Char :=
  let h := pyHexUpper n
  List.replicate (w - h.length) '0' ++ h

/-- `Frame._calculate_checksum`: sum of the payload bytes modulo 256. -/
def calculateChecksum (payload : List Nat) : Nat :=
  payload.sum % 256

/-- `Frame._calculate_parity`: XOR of the payload bytes. -/
def calculateParity (payload : List Nat) : Nat :=
  payload.foldl Nat.xor 0

/-- The two ASCII bytes of `f-string` `{n:02X}.encode("ascii")`, used for
the checksum and parity fields of a frame. -/
def encodeHex2 (n : Nat) : List Nat :=
  (pyHexPad 2 n).map Char.toNat

/-- One payload byte is acceptable: null, '0'-'9' or 'A'-'Z'
(`Frame._validate`, character check). -/
def validPayloadByte (c : Nat) : Bool :=
  decide (c = 0 ∨ (48 ≤ c ∧ c ≤ 57) ∨ (65 ≤ c ∧ c ≤ 90))

/-- The payload of a frame, Python `frame[1:-6]` (for frames of length at
least 7, which validation guarantees). -/
def framePayload (b : List Nat) : List Nat :=
  pySlice b 1 (b.length - 6)

/-- `Frame._validate`: `true` iff the accumulated error string is empty,
i.e. iff no `ValueError` is raised.  Slices with negative Python indices
are written for the length-at-least-13 case; shorter frames are rejected
by the length conjunct either way. -/
def validateFrame (b : List Nat) : Bool :=
  let L := b.length
  let payload := framePayload b
  decide (13 ≤ L) &&
  decide (pySlice b 0 1 = [2]) &&
  decide (b.drop (L - 2) = [3, 255]) &&
  decide (¬ 2 ∈ payload) &&
  decide (¬ 3 ∈ payload) &&
  payload.all validPayloadByte &&
  decide (pySlice b (L - 6) (L - 4) = encodeHex2 (calculateChecksum payload)) &&
  decide (pySlice b (L - 4) (L - 2) = encodeHex2 (calculateParity payload))

/-- `Frame.get_bytes`: start marker, payload, checksum, parity, end
marker. -/
def getBytes (payload : List Nat) : List Nat :=
  2 :: (payload ++ encodeHex2 (calculateChecksum payload)
          ++ encodeHex2 (calculateParity payload) ++ [3, 255])

/-- `Frame._from_bytes`: validate, then keep `data[1:-6]` as the payload;
`none` models the `ValueError` raised on an invalid frame. -/
def frameFromBytes (b : List Nat) : Option (List Nat) :=
  if validateFrame b then some (framePayload b) else none

/-- C1: every byte string accepted by the frame decoder re-encodes,
via `get_bytes` of the decoded payload, to exactly the input bytes. -/
theorem frame_decode_encode_roundtrip (b : List Nat)
    (h : validateFrame b = true) : getBytes (framePayload b) = b := by
  have h' := h
  simp only [validateFrame, Bool.and_eq_true, decide_eq_true_eq] at h'
  obtain ⟨⟨⟨⟨⟨⟨⟨hL, hstart⟩, hend⟩, -⟩, -⟩, -⟩, hchk⟩, hpar⟩ := h'
  have h7 : 7 ≤ b.length := by omega
  have e1 : b.take 1 ++ b.drop 1 = b := List.take_append_drop 1 b
  have e2 : framePayload b ++ (b.drop 1).drop (b.length - 7) = b.drop 1 := by
    have : framePayload b = (b.drop 1).take (b.length - 7) := by
      simp [framePayload, pySlice, Nat.sub_sub]
    rw [this]
    exact List.take_append_drop _ _
  have e3 : (b.drop 1).drop (b.length - 7) = b.drop (b.length - 6) := by
    rw [List.drop_drop]
    congr 1
    omega
  have e4 : pySlice b (b.length - 6) (b.length - 4) ++ b.drop (b.length - 4)
      = b.drop (b.length - 6) := by
    have h2 : b.length - 4 - (b.length - 6) = 2 := by omega
    have h5 : (b.drop (b.length - 6)).drop 2 = b.drop (b.length - 4) := by
      rw [List.drop_drop]
      congr 1
      omega
    calc pySlice b (b.length - 6) (b.length - 4) ++ b.drop (b.length - 4)
        = (b.drop (b.length - 6)).take 2 ++ (b.drop (b.length - 6)).drop 2 := by
          rw [h5, pySlice, h2]
      _ = b.drop (b.length - 6) := List.take_append_drop _ _
  have e5 : pySlice b (b.length - 4) (b.length - 2) ++ b.drop (b.length - 2)
      = b.drop (b.length - 4) := by
    have h2 : b.length - 2 - (b.length - 4) = 2 := by omega
    have h5 : (b.drop (b.length - 4)).drop 2 = b.drop (b.length - 2) := by
      rw [List.drop_drop]
      congr 1
      omega
    calc pySlice b (b.length - 4) (b.length - 2) ++ b.drop (b.length - 2)
        = (b.drop (b.length - 4)).take 2 ++ (b.drop (b.length - 4)).drop 2 := by
          rw [h5, pySlice, h2]
      _ = b.drop (b.length - 4) := List.take_append_drop _ _
  have hstart' : b.take 1 = [2] := by
    have : pySlice b 0 1 = b.take 1 := by simp [pySlice]
    rw [this] at hstart
    exact hstart
  calc getBytes (framePayload b)
      = 2 :: (framePayload b ++ encodeHex2 (calculateChecksum (framePayload b))
          ++ encodeHex2 (calculateParity (framePayload b)) ++ [3, 255]) := rfl
    _ = b.take 1 ++ (framePayload b ++ (pySlice b (b.length - 6) (b.length - 4)
          ++ (pySlice b (b.length - 4) (b.length - 2) ++ b.drop (b.length - 2)))) := by
        rw [hstart', ← hchk, ← hpar, hend]
        simp [List.append_assoc]
    _ = b := by
        rw [e5, e4, ← e3, e2, e1]

/-- Witness for C1 at a concrete accepted frame (payload "800121",
a heartbeat request from the charger). -/
def frameC1 : List Nat :=
  [2, 56, 48, 48, 49, 50, 49, 50, 67, 48, 65, 3, 255]

theorem frame_decode_encode_roundtrip_witness :
    validateFrame frameC1 = true ∧ getBytes (framePayload frameC1) = frameC1 :=
  ⟨by decide, frame_decode_encode_roundtrip frameC1 (by decide)⟩

/-- A protocol packet (`packet.Packet`): destination and source
addresses, command byte, and the `dat` string. -/
structure Packet where
  dst : Nat
  src : Nat
  cmd : Nat
  dat : List Char
deriving DecidableEq, Repr

/-- `packet.ADDR_CHARGER` -/
def ADDR_CHARGER : Nat := 0x01
/-- `packet.ADDR_CP` -/
def ADDR_CP : Nat := 0x80
/-- `packet.ADDR_BROADCAST` -/
def ADDR_BROADCAST : Nat := 0xBC
/-- `packet.ADDR_CHARGESTATION` -/
def ADDR_CHARGESTATION : Nat := 0xFD

/-- `Packet._print`: `true` iff the call raises `ValueError`, either from
a failing mid-branch `int.from_bytes(bytes.fromhex(...))` or from the
accumulated `error` string being non-empty at the end (the per-command
schema checks on message length and direction). -/
def printRaises (p : Packet) : Bool :=
  let dat := p.dat
  let L := dat.length
  let hx : Nat → Nat → Bool := fun a b => (pyFromHex (pySlice dat a b)).isSome
  -- line 102: foo = int.from_bytes(bytes.fromhex(self.dat[0:4]))
  if ¬ hx 0 4 then true
  else if p.cmd = 0x11 then
    (if p.dst = ADDR_CP then L != 15 else L != 11)
  else if p.cmd = 0x13 then
    (if p.src = ADDR_CP then L != 0
     else
       let state := (pyFromHex (pySlice dat 0 4)).getD 0
       if state = 0xAA00 then
         decide (L < 4) || (L != 64) || !hx 4 6 || !hx 22 24 || !hx 56 60
       else if state = 0x0055 then decide (L < 4) || (L != 4)
       else true)
  else if p.cmd = 0x18 then
    (if p.src = ADDR_CP then (L != 2) || !hx 0 2 else true)
  else if p.cmd = 0x1B then
    (if p.src = ADDR_CP then L != 10 else true)
  else if p.cmd = 0x1C then
    (if p.src = ADDR_CP then (L != 2) || !hx 0 2 else true)
  else if p.cmd = 0x1E then
    (if p.src = ADDR_CP then L != 0 else true)
  else if p.cmd = 0x21 then (L != 0)
  else if p.cmd = 0x22 then
    (if p.dst = ADDR_CP then L != 26 else L != 30) || !hx 0 2 || !hx 2 4
  else if p.cmd = 0x23 then
    (if p.dst = ADDR_CP then (L != 32) || !hx 0 2 || !hx 24 32
     else (L != 18) || !hx 2 10 || !hx 10 18)
  else if p.cmd = 0x24 then
    (if p.dst = ADDR_CP then (L != 50) || !hx 0 2 || !hx 32 40 || !hx 42 50 || !hx 24 32
     else L != 2)
  else if p.cmd = 0x26 then
    (if p.dst = ADDR_CP then
       (L != 132) || !hx 0 2 || !hx 6 8 || !hx 8 10 || !hx 10 12 || !hx 12 14
         || !hx 18 26 || !hx 30 32 || !hx 52 56 || !hx 58 66 || !hx 68 72
         || !hx 72 76 || !hx 76 80 || !hx 80 84 || !hx 84 88 || !hx 88 92
         || !hx 92 96 || !hx 96 100 || !hx 100 104 || !hx 104 108
         || !hx 124 128 || !hx 128 132
     else (L != 16) || !hx 0 8 || !hx 8 16)
  else if p.cmd = 0x2A then false
  else if p.cmd = 0x31 then
    (if p.src = ADDR_CP then (L != 24) || !hx 0 2 else (L != 2) || !hx 0 2)
  else if p.cmd = 0x32 then
    (if p.src = ADDR_CP then (L != 8) || !hx 0 8 else (L != 2) || !hx 0 2)
  else if p.cmd = 0x33 then
    (if p.src = ADDR_CP then L != 0
     else ((L != 74) && (L != 78)) || !hx 20 24 || !hx 30 32 || !hx 36 38
       || !hx 54 56 || !hx 66 68)
  else if p.cmd = 0x34 then
    (if p.src = ADDR_CP then
       (L != 86) || !hx 8 10 || !hx 16 18 || !hx 38 40 || !hx 58 66 || !hx 74 76
     else L != 4)
  else if p.cmd = 0x35 then
    (if p.src = ADDR_CP then false else true)
  else if p.cmd = 0x36 then false
  else if p.cmd = 0x37 then false
  else if p.cmd = 0x38 then false
  else if p.cmd = 0x41 then false
  else if p.cmd = 0x42 then (L != 7)
  else if p.cmd = 0x43 then
    (if p.src = ADDR_CP then L != 0 else L != 18)
  else if p.cmd = 0x65 then
    (if p.src = ADDR_CP then (L != 4) || !hx 0 4 else true)
  else if p.cmd = 0x66 then
    (if p.dst = ADDR_CP then
       (L != 44) || !hx 0 4 || !hx 4 8 || !hx 8 12 || !hx 12 16 || !hx 16 20
         || !hx 20 24 || !hx 24 28 || !hx 28 32 || !hx 32 36 || !hx 36 44
     else L != 0)
  else if p.cmd = 0x6A then
    (if p.dst = ADDR_CP then (L != 4) || !hx 0 2 else (L != 4) || !hx 0 4)
  else if p.cmd = 0x6B then
    (if p.src = ADDR_CP then
       (L != 18) || !hx 2 6 || !hx 6 10 || !hx 10 14 || !hx 14 18
     else L != 0)
  else false

/-- `Packet.from_payload`: decode the payload bytes as ASCII, parse the
address and command fields as hex pairs, keep the rest as `dat`, then run
`_print` (which performs the schema checks and may raise). `none` models
any raised `ValueError`. -/
def fromPayload (payload : List Nat) : Option Packet :=
  if payload.all (fun x => x < 128) then
    let data : List Char := payload.map Char.ofNat
    match pyFromHex (pySlice data 0 2), pyFromHex (pySlice data 2 4),
          pyFromHex (pySlice data 4 6) with
    | some d, some s, some c =>
      let p : Packet := ⟨d, s, c, data.drop 6⟩
      if printRaises p then none else some p
    | _, _, _ => none
  else none

/-- `Frame(frame_data).get_packet()` as used by `find_frames`: validate
the frame envelope, then decode the payload into a packet. -/
def decodeFrame (b : List Nat) : Option Packet :=
  (frameFromBytes b).bind fromPayload

/-- Python `data.find(b"\x02")`: index of the first 0x02 byte. -/
def findStartMarker : List Nat → Option Nat
  | [] => none
  | a :: rest =>
      if a = 2 then some 0 else (findStartMarker rest).map (· + 1)

/-- Python `data.find(b"\x03\xFF")`: index of the first occurrence of the
two-byte end-of-frame marker. -/
def findEndMarker : List Nat → Option Nat
  | [] => none
  | [_] => none
  | a :: b :: rest =>
      if a = 3 ∧ b = 255 then some 0
      else (findEndMarker (b :: rest)).map (· + 1)

theorem findEndMarker_le {l : List Nat} {k : Nat}
    (h : findEndMarker l = some k) : k + 2 ≤ l.length := by
  induction l generalizing k with
  | nil => simp [findEndMarker] at h
  | cons a tl ih =>
    cases tl with
    | nil => simp [findEndMarker] at h
    | cons b t =>
      rw [findEndMarker] at h
      split at h
      · cases h
        simp
      · rcases Option.map_eq_some'.1 h with ⟨k', hk', rfl⟩
        have := ih hk'
        simp at this ⊢
        omega

theorem findEndMarker_append {l r : List Nat} {k : Nat}
    (h : findEndMarker l = some k) : findEndMarker (l ++ r) = some k := by
  induction l generalizing k with
  | nil => simp [findEndMarker] at h
  | cons a tl ih =>
    cases tl with
    | nil => simp [findEndMarker] at h
    | cons b t =>
      rw [findEndMarker] at h
      rw [List.cons_append, List.cons_append, findEndMarker]
      split at h
      · cases h
        simp_all
      · rcases Option.map_eq_some'.1 h with ⟨k', hk', rfl⟩
        rw [← List.cons_append]
        simp only [*, if_neg]
        rw [ih hk']
        rfl

theorem findStartMarker_of_head {fb : List Nat} (h : fb.head? = some 2)
    (g : List Nat) (hg : ∀ x ∈ g, x ≠ 2) :
    findStartMarker (g ++ fb) = some g.length := by
  induction g with
  | nil =>
    cases fb with
    | nil => simp at h
    | cons a t =>
      simp at h
      subst h
      simp [findStartMarker]
  | cons a g' ih =>
    have ha : a ≠ 2 := hg a (by simp)
    rw [List.cons_append, findStartMarker, if_neg ha,
      ih (fun x hx => hg x (by simp [hx]))]
    rfl

/-- What the scanning loop in `main.find_frames` does with one decoded
frame, in normal (serial, non-monitor) operation: a packet that decodes is
passed to the actor's `respond`; a frame whose decode raises is only
logged. -/
inductive ScanEvent where
  | dispatched (p : Packet)
  | malformed (bytes : List Nat)
deriving DecidableEq, Repr

/-- `main.find_frames`: repeatedly locate a 0x02 start marker (discarding
bytes before it), locate the 0x03 0xFF end marker, extract the closed
frame, decode it (the `except ValueError` branch only logs), and always
consume up to and including the end marker; return the scan events of
normal operation together with the unconsumed remainder. -/
def findFrames (data : List Nat) : List ScanEvent × List Nat :=
  match findStartMarker data with
  | none => ([], [])
  | some n =>
    match he : findEndMarker (data.drop n) with
    | none => ([], data.drop n)
    | some m =>
      let frameData := (data.drop n).take (m + 2)
      let ev := match decodeFrame frameData with
        | some p => ScanEvent.dispatched p
        | none => ScanEvent.malformed frameData
      let r := findFrames ((data.drop n).drop (m + 2))
      (ev :: r.1, r.2)
termination_by data.length
decreasing_by
  have h1 := findEndMarker_le he
  simp only [List.length_drop] at h1 ⊢
  omega

/-- One step of the scanner on a closed frame: any bytes before the start
marker are discarded, the closed frame produces exactly one event
(dispatched when it decodes, malformed when decoding raises), and
scanning continues on the bytes after the end marker.  The hypotheses say
that `g` holds no start marker, that `fb` begins with 0x02, and that the
first end marker inside `fb` is its final two bytes. -/
theorem findFrames_step (g fb rest : List Nat)
    (hg : ∀ x ∈ g, x ≠ 2) (hhd : fb.head? = some 2)
    (hend : findEndMarker fb = some (fb.length - 2)) :
    findFrames (g ++ (fb ++ rest)) =
      ((match decodeFrame fb with
        | some p => ScanEvent.dispatched p
        | none => ScanEvent.malformed fb) :: (findFrames rest).1,
       (findFrames rest).2) := by
  have hlen : fb.length - 2 + 2 ≤ fb.length := findEndMarker_le hend
  have hlen2 : 2 ≤ fb.length := by omega
  have heq : fb.length - 2 + 2 = fb.length := by omega
  have hhd' : (fb ++ rest).head? = some 2 := by
    cases fb with
    | nil => simp at hhd
    | cons a t => simp_all
  have hstart : findStartMarker (g ++ (fb ++ rest)) = some g.length :=
    findStartMarker_of_head hhd' g hg
  have hdrop : (g ++ (fb ++ rest)).drop g.length = fb ++ rest :=
    List.drop_left g (fb ++ rest)
  have hend' : findEndMarker (fb ++ rest) = some (fb.length - 2) :=
    findEndMarker_append hend
  have htake : (fb ++ rest).take (fb.length - 2 + 2) = fb := by
    rw [heq]
    exact List.take_left fb rest
  have hdrop2 : (fb ++ rest).drop (fb.length - 2 + 2) = rest := by
    rw [heq]
    exact List.drop_left fb rest
  rw [findFrames.eq_def, hstart]
  simp only [hdrop]
  split
  next he2 =>
    rw [hdrop, hend'] at he2
    simp at he2
  next m he2 =>
    rw [hdrop, hend'] at he2
    injection he2 with hm
    subst hm
    rw [htake, hdrop2]

/-- C3: the frame scanner is a total function (it never raises to its
caller), and after locating a 0x02 start marker and the first following
0x03 0xFF end marker it consumes the bytes up to and including the end
marker whether or not decoding succeeds (a malformed frame yields only a
log event) and continues scanning the remainder. -/
theorem find_frames_consumes_and_continues (g fb rest : List Nat)
    (hg : ∀ x ∈ g, x ≠ 2) (hhd : fb.head? = some 2)
    (hend : findEndMarker fb = some (fb.length - 2)) :
    findFrames (g ++ (fb ++ rest)) =
      ((match decodeFrame fb with
        | some p => ScanEvent.dispatched p
        | none => ScanEvent.malformed fb) :: (findFrames rest).1,
       (findFrames rest).2) :=
  findFrames_step g fb rest hg hhd hend

theorem find_frames_consumes_and_continues_witness :
    ((∀ x ∈ ([0] : List Nat), x ≠ 2) ∧ frameC1.head? = some 2 ∧
      findEndMarker frameC1 = some (frameC1.length - 2)) ∧
    findFrames ([0] ++ (frameC1 ++ [])) =
      ((match decodeFrame frameC1 with
        | some p => ScanEvent.dispatched p
        | none => ScanEvent.malformed frameC1) :: (findFrames []).1,
       (findFrames []).2) :=
  ⟨⟨by decide, by decide, by decide⟩,
    find_frames_consumes_and_continues [0] frameC1 [] (by decide) (by decide) (by decide)⟩

/-- A frame whose envelope (markers, characters, checksum, parity) is
valid but whose payload decodes to a heartbeat request (cmd 0x21, dst
0x80) carrying `dat = "00"`, an unexpected `dat` length for that
opcode. -/
def frameC2 : List Nat :=
  [2, 56, 48, 48, 49, 50, 49, 48, 48, 56, 67, 48, 65, 3, 255]

theorem find_frames_base : findFrames ([] : List Nat) = ([], []) := by
  rw [findFrames.eq_def]
  rfl

/-- C2 fails on the code: a frame with a valid envelope carrying a
recognized opcode (0x21 heartbeat) with an unexpected `dat` length makes
`Packet._print` raise `ValueError`; `find_frames` catches it and never
calls `respond`, so the packet is not dispatched. -/
theorem schema_error_rejects_packet_counterexample :
    validateFrame frameC2 = true ∧
    fromPayload (framePayload frameC2) = none ∧
    printRaises ⟨0x80, 0x01, 0x21, ['0', '0']⟩ = true ∧
    pyFromHex (pySlice ((framePayload frameC2).map Char.ofNat) 4 6) = some 0x21 ∧
    ((framePayload frameC2).map Char.ofNat).drop 6 = ['0', '0'] ∧
    findFrames frameC2 = ([ScanEvent.malformed frameC2], []) := by
  refine ⟨by decide, by decide, by decide, by decide, by decide, ?_⟩
  have hd : decodeFrame frameC2 = none := by decide
  have h := findFrames_step [] frameC2 [] (by decide) (by decide) (by decide)
  simp only [List.nil_append, List.append_nil, hd, find_frames_base] at h
  exact h

/-- C2, amended: a frame whose envelope validates but whose packet decode
raises (in particular from the per-command schema checks in
`Packet._print`) is not dispatched to the actor: the scanner records it
as malformed, consumes it, and continues with the remainder. -/
theorem schema_error_skips_dispatch (g fb rest : List Nat)
    (hg : ∀ x ∈ g, x ≠ 2) (hhd : fb.head? = some 2)
    (hend : findEndMarker fb = some (fb.length - 2))
    (henv : validateFrame fb = true)
    (hschema : fromPayload (framePayload fb) = none) :
    findFrames (g ++ (fb ++ rest)) =
      (ScanEvent.malformed fb :: (findFrames rest).1, (findFrames rest).2) := by
  have hd : decodeFrame fb = none := by
    simp [decodeFrame, frameFromBytes, henv, hschema]
  have h := findFrames_step g fb rest hg hhd hend
  simp only [hd] at h
  exact h

theorem schema_error_skips_dispatch_witness :
    ((∀ x ∈ ([] : List Nat), x ≠ 2) ∧ frameC2.head? = some 2 ∧
      findEndMarker frameC2 = some (frameC2.length - 2) ∧
      validateFrame frameC2 = true ∧
      fromPayload (framePayload frameC2) = none) ∧
    findFrames ([] ++ (frameC2 ++ [])) =
      (ScanEvent.malformed frameC2 :: (findFrames []).1, (findFrames []).2) :=
  ⟨⟨by decide, by decide, by decide, by decide, by decide⟩,
    schema_error_skips_dispatch [] frameC2 [] (by decide) (by decide) (by decide)
      (by decide) (by decide)⟩

/-- `config.allowed_cards` -/
def allowed_cards : List (List Char) :=
  ["04BA2A2ADA1790".toList, "0497147A5B1994".toList]

/-- The actor state of `cb_manager.CP`: the poor-mans init state machine
(`_charger_state`), the retransmission bookkeeping and the shared outbox
(the deque of `main.py`, whose `appendleft` is modelled as consing at the
head). -/
structure CPState where
  charger_state : Nat
  last_message : Packet
  last_message_timestamp : Nat
  check_message_response : Bool
  outbox : List Packet
deriving DecidableEq, Repr

/-- `CP._send`: optionally arm the response check and remember the
message, stamp the send time, and `appendleft` onto the outbox. -/
def cpSend (now : Nat) (s : CPState) (p : Packet) (check_response : Bool) : CPState :=
  { charger_state := s.charger_state
    last_message := if check_response then p else s.last_message
    last_message_timestamp := now
    check_message_response := if check_response then true else s.check_message_response
    outbox := p :: s.outbox }

/-- `CP._timestamp`: seconds since 2000-01-01 as 8 uppercase hex digits
(`now` is in milliseconds since 2000-01-01). -/
def cpTimestamp (now : Nat) : List Char :=
  pyHexPad 8 (now / 1000)

/-- Python 3.10+ `f-string` formatting `{s:022}` of a string: '0'-fill to
a minimal width of 22, default (left) alignment. -/
def pyZeroPad22 (s : List Char) : List Char :=
  s ++ List.replicate (22 - s.length) '0'

/-- `CP.respond`: react to one received packet.  `none` models an
uncaught `ValueError` (only possible in the 0x22 branch when the card
length field is not hex, which a packet that passed `Packet._print`
cannot exhibit). -/
def respond (now : Nat) (s : CPState) (m : Packet) : Option CPState :=
  if ¬ (m.dst = ADDR_BROADCAST ∨ m.dst = ADDR_CP) then some s
  else if m.cmd = 0x11 then
    let serial := pySlice m.dat 0 7
    some { cpSend now s
      ⟨m.src, ADDR_CP, m.cmd, serial ++ pyHexPad 2 ADDR_CHARGER ++ "03".toList⟩ false
      with charger_state := 1 }
  else if m.cmd = 0x13 then
    some (cpSend now s ⟨m.src, ADDR_CP, 0x33, []⟩ false)
  else if m.cmd = 0x21 then
    some (cpSend now s ⟨m.src, ADDR_CP, m.cmd, []⟩ false)
  else if m.cmd = 0x22 then
    match pyFromHex (pySlice m.dat 2 4) with
    | none => none
    | some card_number_length =>
      let card_number := pySlice m.dat 4 (4 + card_number_length)
      let status :=
        if card_number = "000000AS".toList then "01".toList
        else if card_number ∈ allowed_cards then "01".toList
        else "12".toList
      some (cpSend now s ⟨m.src, ADDR_CP, m.cmd,
        status ++ pyHexPad 2 card_number_length ++ pyZeroPad22 card_number
          ++ "FFFF".toList⟩ false)
  else if m.cmd = 0x23 then
    some (cpSend now s
      ⟨m.src, ADDR_CP, m.cmd, "01".toList ++ pyHexPad 8 0 ++ cpTimestamp now⟩ false)
  else if m.cmd = 0x24 then
    some (cpSend now s ⟨m.src, ADDR_CP, m.cmd, "01".toList⟩ false)
  else if m.cmd = 0x26 then
    some (cpSend now s ⟨m.src, ADDR_CP, m.cmd, pyHexPad 8 0 ++ cpTimestamp now⟩ false)
  else if m.cmd = 0x31 ∨ m.cmd = 0x32 ∨ m.cmd = 0x33 ∨ m.cmd = 0x34 then
    some { s with check_message_response := false }
  else if m.cmd = 0x36 ∨ m.cmd = 0x37 ∨ m.cmd = 0x38 ∨ m.cmd = 0x41
      ∨ m.cmd = 0x42 ∨ m.cmd = 0x43 then
    some s
  else if m.cmd = 0x66 then
    some (cpSend now s ⟨m.src, ADDR_CP, m.cmd, []⟩ false)
  else if m.cmd = 0x6A then
    let s1 := cpSend now s ⟨m.src, ADDR_CP, m.cmd, "AA00".toList⟩ false
    let state := pySlice m.dat 0 2
    if state = "A7".toList then
      let current_min := "003C".toList
      some (cpSend now s1 ⟨m.src, ADDR_CP, 0x6B,
        "01".toList ++ current_min ++ "003C".toList ++ "003C".toList ++ "003C".toList⟩ true)
    else if state = "81".toList then
      let current_min := "003C".toList
      some (cpSend now s1 ⟨m.src, ADDR_CP, 0x6B,
        "01".toList ++ current_min ++ "00A0".toList ++ "00A0".toList ++ "00A0".toList⟩ true)
    else some s1
  else if m.cmd = 0x6B then
    some { s with check_message_response := false }
  else some s

/-- `CP._check_response`: when the response to the last tracked message
is overdue by 2 seconds, resend it (tracked). -/
def checkResponse (now : Nat) (s : CPState) : CPState :=
  if now < s.last_message_timestamp + 2000 then s
  else cpSend now s s.last_message true

/-- `CP._configure_charger`: after 5 quiet seconds, step the
post-registration configuration state machine. -/
def configureCharger (now : Nat) (s : CPState) : CPState :=
  if now < s.last_message_timestamp + 5000 then s
  else if s.charger_state = 1 then
    let heartbeat_interval := "0000003C".toList
    let led_enable := "00".toList
    { cpSend now s ⟨ADDR_CHARGER, ADDR_CP, 0x1B,
        heartbeat_interval ++ led_enable⟩ false with charger_state := 2 }
  else if s.charger_state = 2 then
    let mask := "FFFFFFFF".toList
    let led_brightness := "1E".toList
    let meter_type := "01".toList
    let auto_start := "01".toList
    let meter_update_interval := "0000003C".toList
    let remote_start := "00".toList
    { cpSend now s ⟨ADDR_CHARGER, ADDR_CP, 0x34,
        mask ++ led_brightness ++ "030000".toList ++ meter_type
          ++ "01000100000000000000".toList ++ auto_start
          ++ "000000003C00000384".toList ++ meter_update_interval
          ++ "01000000".toList ++ remote_start ++ "03E8010000".toList⟩ true
      with charger_state := 3 }
  else if s.charger_state = 3 then
    { s with charger_state := 0 }
  else s

/-- `CP.timers`: run the retransmission check when armed, then the
configuration state machine when active.  A single `now` stands for the
two `datetime.now()` calls of one invocation. -/
def timers (now : Nat) (s : CPState) : CPState :=
  let s1 := if s.check_message_response then checkResponse now s else s
  if s1.charger_state > 0 then configureCharger now s1 else s1

/-- The outbox drain loop of `main.find_frames` and
`main.read_from_serial`: `while OUTBOX: send(OUTBOX.pop())`, popping from
the right of the deque; returns the packets in the order they are
sent. -/
def drainOutbox (l : List Packet) : List Packet :=
  match hl : l.getLast? with
  | none => []
  | some p => p :: drainOutbox l.dropLast
termination_by l.length
decreasing_by
  have hne : l ≠ [] := by
    intro h
    subst h
    simp at hl
  cases l with
  | nil => exact absurd rfl hne
  | cons a t => simp

theorem drainOutbox_eq_reverse (l : List Packet) : drainOutbox l = l.reverse := by
  induction l using List.reverseRecOn with
  | nil =>
    rw [drainOutbox.eq_def]
    rfl
  | append_singleton l a ih =>
    rw [drainOutbox.eq_def]
    split
    next hl =>
      simp [List.getLast?_concat] at hl
    next p hl =>
      rw [List.getLast?_concat] at hl
      injection hl with hp
      subst hp
      rw [List.dropLast_concat, ih]
      simp

theorem foldl_appendleft (ps acc : List Packet) :
    ps.foldl (fun box p => p :: box) acc = ps.reverse ++ acc := by
  induction ps generalizing acc with
  | nil => simp
  | cons a t ih => simp [ih]

/-- C9: the outbox drain (`while OUTBOX: send(OUTBOX.pop())`) transmits
packets in insertion order — popping from the right of a deque filled by
`appendleft` is FIFO — and in particular, for a 0x6A packet with state
code "A7" handled from an empty outbox, the "AA00" ack enqueued first is
sent before the 0x6B request enqueued second. -/
theorem outbox_drained_in_insertion_order (now : Nat) (s : CPState) (m : Packet)
    (hdst : m.dst = ADDR_BROADCAST ∨ m.dst = ADDR_CP) (hcmd : m.cmd = 0x6A)
    (hstate : pySlice m.dat 0 2 = "A7".toList) (hout : s.outbox = []) :
    (∀ ps : List Packet, drainOutbox (ps.foldl (fun box p => p :: box) []) = ps) ∧
    (respond now s m).map (fun t => drainOutbox t.outbox) =
      some [⟨m.src, ADDR_CP, 0x6A, "AA00".toList⟩,
            ⟨m.src, ADDR_CP, 0x6B, "01003C003C003C003C".toList⟩] := by
  constructor
  · intro ps
    rw [foldl_appendleft, drainOutbox_eq_reverse]
    simp
  · have hdst' : (m.dst = ADDR_BROADCAST ∨ m.dst = ADDR_CP) = True := eq_true hdst
    simp only [respond, hcmd, hdst', not_true, if_false, if_neg]
    simp only [show (0x6A = 0x11) = False by decide, show (0x6A = 0x13) = False by decide,
      show (0x6A = 0x21) = False by decide, show (0x6A = 0x22) = False by decide,
      show (0x6A = 0x23) = False by decide, show (0x6A = 0x24) = False by decide,
      show (0x6A = 0x26) = False by decide, show (0x6A = 0x31) = False by decide,
      show (0x6A = 0x32) = False by decide, show (0x6A = 0x33) = False by decide,
      show (0x6A = 0x34) = False by decide, show (0x6A = 0x36) = False by decide,
      show (0x6A = 0x37) = False by decide, show (0x6A = 0x38) = False by decide,
      show (0x6A = 0x41) = False by decide, show (0x6A = 0x42) = False by decide,
      show (0x6A = 0x43) = False by decide, show (0x6A = 0x66) = False by decide,
      show (0x6A = 0x6A) = True by decide, or_self, if_false, if_true, ite_true, ite_false]
    rw [if_pos hstate]
    simp only [Option.map_some']
    rw [drainOutbox_eq_reverse]
    simp only [cpSend, hout]
    simp [Packet.mk.injEq]

/-- C5: a 0x11 register request moves the actor to phase 1
(`charger_state = 1`) and, from an empty outbox, leaves exactly one
packet: a 0x11 response to the request's source, from CP, whose `dat` is
the first 7 characters of the request's `dat` followed by "01" (the
charger address) and "03" (the generation). -/
theorem register_request_response (now : Nat) (s : CPState) (m : Packet)
    (hdst : m.dst = ADDR_BROADCAST ∨ m.dst = ADDR_CP) (hcmd : m.cmd = 0x11)
    (hout : s.outbox = []) :
    ∃ t, respond now s m = some t ∧ t.charger_state = 1 ∧
      t.outbox = [⟨m.src, ADDR_CP, 0x11, pySlice m.dat 0 7 ++ "0103".toList⟩] := by
  have hdst' : (m.dst = ADDR_BROADCAST ∨ m.dst = ADDR_CP) = True := eq_true hdst
  have hresp : respond now s m =
      some { cpSend now s
        ⟨m.src, ADDR_CP, 0x11, pySlice m.dat 0 7 ++ "0103".toList⟩ false
        with charger_state := 1 } := by
    simp [respond, hcmd, hdst', cpSend, Packet.mk.injEq]
    decide
  exact ⟨_, hresp, rfl, by simp [cpSend, hout]⟩

/-- C4: the reply to a 0x22 authentication request carries `dat` equal to
status, then the card length as two hex digits, then the card number
zero-padded on the right to 22 characters, then "FFFF"; the status is
"01" exactly when the card number is the auto-start literal "000000AS"
or a member of `allowed_cards`, and "12" otherwise. -/
theorem auth_request_response (now : Nat) (s : CPState) (m : Packet) (L : Nat)
    (hdst : m.dst = ADDR_BROADCAST ∨ m.dst = ADDR_CP) (hcmd : m.cmd = 0x22)
    (hlen : pyFromHex (pySlice m.dat 2 4) = some L) :
    ∃ t, respond now s m = some t ∧
      t.outbox = ⟨m.src, ADDR_CP, 0x22,
        (if pySlice m.dat 4 (4 + L) = "000000AS".toList
            ∨ pySlice m.dat 4 (4 + L) ∈ allowed_cards
         then "01".toList else "12".toList)
        ++ pyHexPad 2 L ++ pyZeroPad22 (pySlice m.dat 4 (4 + L))
        ++ "FFFF".toList⟩ :: s.outbox := by
  have hdst' : (m.dst = ADDR_BROADCAST ∨ m.dst = ADDR_CP) = True := eq_true hdst
  have hstatus :
      (if pySlice m.dat 4 (4 + L) = "000000AS".toList then "01".toList
       else if pySlice m.dat 4 (4 + L) ∈ allowed_cards then "01".toList
       else "12".toList) =
      (if pySlice m.dat 4 (4 + L) = "000000AS".toList
          ∨ pySlice m.dat 4 (4 + L) ∈ allowed_cards
       then "01".toList else "12".toList) := by
    by_cases hAS : pySlice m.dat 4 (4 + L) = "000000AS".toList
    · simp [hAS]
    · by_cases hmem : pySlice m.dat 4 (4 + L) ∈ allowed_cards
      · simp [hAS, hmem]
      · simp [hAS, hmem]
  have hresp : respond now s m =
      some (cpSend now s ⟨m.src, ADDR_CP, 0x22,
        (if pySlice m.dat 4 (4 + L) = "000000AS".toList
            ∨ pySlice m.dat 4 (4 + L) ∈ allowed_cards
         then "01".toList else "12".toList)
        ++ pyHexPad 2 L ++ pyZeroPad22 (pySlice m.dat 4 (4 + L))
        ++ "FFFF".toList⟩ false) := by
    simp only [respond]
    rw [if_neg (not_not_intro hdst)]
    rw [if_neg (by rw [hcmd]; decide), if_neg (by rw [hcmd]; decide),
      if_neg (by rw [hcmd]; decide), if_pos hcmd]
    simp only [hlen]
    rw [hstatus, hcmd]
  exact ⟨_, hresp, rfl⟩

/-- C6: every 0x6A charging-state packet is acknowledged with a 0x6A
reply carrying "AA00"; when the embedded state code is "A7" a
retry-tracked 0x6B request with `dat` "01003C003C003C003C" is also
enqueued, when it is "81" a retry-tracked 0x6B request with `dat`
"01003C00A000A000A0" is also enqueued, and for any other state code only
the ack is enqueued. -/
theorem charging_state_ack_and_limit (now : Nat) (s : CPState) (m : Packet)
    (hdst : m.dst = ADDR_BROADCAST ∨ m.dst = ADDR_CP) (hcmd : m.cmd = 0x6A) :
    ∃ t, respond now s m = some t ∧
      (pySlice m.dat 0 2 = "A7".toList →
        t.outbox = [⟨m.src, ADDR_CP, 0x6B, "01003C003C003C003C".toList⟩,
                    ⟨m.src, ADDR_CP, 0x6A, "AA00".toList⟩] ++ s.outbox ∧
        t.check_message_response = true ∧
        t.last_message = ⟨m.src, ADDR_CP, 0x6B, "01003C003C003C003C".toList⟩) ∧
      (pySlice m.dat 0 2 = "81".toList →
        t.outbox = [⟨m.src, ADDR_CP, 0x6B, "01003C00A000A000A0".toList⟩,
                    ⟨m.src, ADDR_CP, 0x6A, "AA00".toList⟩] ++ s.outbox ∧
        t.check_message_response = true ∧
        t.last_message = ⟨m.src, ADDR_CP, 0x6B, "01003C00A000A000A0".toList⟩) ∧
      (pySlice m.dat 0 2 ≠ "A7".toList → pySlice m.dat 0 2 ≠ "81".toList →
        t.outbox = ⟨m.src, ADDR_CP, 0x6A, "AA00".toList⟩ :: s.outbox ∧
        t.check_message_response = s.check_message_response) := by
  have hdst' : (m.dst = ADDR_BROADCAST ∨ m.dst = ADDR_CP) = True := eq_true hdst
  by_cases hA : pySlice m.dat 0 2 = "A7".toList
  · have hresp : respond now s m =
        some (cpSend now (cpSend now s ⟨m.src, ADDR_CP, 0x6A, "AA00".toList⟩ false)
          ⟨m.src, ADDR_CP, 0x6B, "01003C003C003C003C".toList⟩ true) := by
      simp [respond, hcmd, hdst', hA, cpSend, Packet.mk.injEq]
    refine ⟨_, hresp, fun _ => ⟨rfl, rfl, rfl⟩, ?_, ?_⟩
    · intro h81
      rw [hA] at h81
      exact absurd h81 (by decide)
    · intro hnA _
      exact absurd hA hnA
  · by_cases h81 : pySlice m.dat 0 2 = "81".toList
    · have hresp : respond now s m =
          some (cpSend now (cpSend now s ⟨m.src, ADDR_CP, 0x6A, "AA00".toList⟩ false)
            ⟨m.src, ADDR_CP, 0x6B, "01003C00A000A000A0".toList⟩ true) := by
        have hA' : (pySlice m.dat 0 2 = ['A', '7']) = False := eq_false hA
        simp [respond, hcmd, hdst', hA', h81, cpSend, Packet.mk.injEq]
      refine ⟨_, hresp, ?_, fun _ => ⟨rfl, rfl, rfl⟩, ?_⟩
      · intro hA2
        exact absurd hA2 hA
      · intro _ hn81
        exact absurd h81 hn81
    · have hresp : respond now s m =
          some (cpSend now s ⟨m.src, ADDR_CP, 0x6A, "AA00".toList⟩ false) := by
        have hA' : (pySlice m.dat 0 2 = ['A', '7']) = False := eq_false hA
        have h81' : (pySlice m.dat 0 2 = ['8', '1']) = False := eq_false h81
        simp [respond, hcmd, hdst', hA', h81']
      refine ⟨_, hresp, ?_, ?_, fun _ _ => ⟨rfl, rfl⟩⟩
      · intro hA2
        exact absurd hA2 hA
      · intro h812
        exact absurd h812 h81

/-- C7: with the response check armed, one `timers` call resends
`last_message` (retry-tracked, the flag staying set) exactly when 2
seconds have elapsed since the last send, and changes nothing when
strictly less than 2 seconds have elapsed. -/
theorem retransmission_exactly_when_overdue (now : Nat) (s : CPState)
    (h : s.check_message_response = true) :
    (s.last_message_timestamp + 2000 ≤ now →
      timers now s = { s with outbox := s.last_message :: s.outbox,
                              last_message_timestamp := now,
                              check_message_response := true }) ∧
    (now < s.last_message_timestamp + 2000 → timers now s = s) := by
  constructor
  · intro hle
    have hns : ¬ now < s.last_message_timestamp + 2000 := by omega
    have h6 : now < now + 5000 := by omega
    by_cases hcs : 0 < s.charger_state
    · simp [timers, h, checkResponse, hns, cpSend, configureCharger, hcs, h6]
    · simp [timers, h, checkResponse, hns, cpSend, configureCharger, hcs, h6]
  · intro hlt
    have h5 : now < s.last_message_timestamp + 5000 := by omega
    by_cases hcs : 0 < s.charger_state
    · simp [timers, h, checkResponse, hlt, cpSend, configureCharger, hcs, h5]
    · simp [timers, h, checkResponse, hlt, cpSend, configureCharger, hcs, h5]

/-- The fixed `dat` of the phase-2 `0x34 set configuration` request, as
the concatenation of its documented fields. -/
def configDat34 : List Char :=
  "FFFFFFFF".toList ++ "1E".toList ++ "030000".toList ++ "01".toList
    ++ "01000100000000000000".toList ++ "01".toList ++ "000000003C".toList
    ++ "00000384".toList ++ "0000003C".toList ++ "01000000".toList
    ++ "00".toList ++ "03E8010000".toList

/-- C8, amended with the hypothesis that the response check is not armed
(when it is armed and 2 seconds have elapsed, `timers` retransmits and
the refreshed timestamp suppresses `_configure_charger`; see the
counterexample): after 5 quiet seconds, phase 1 sends the untracked 0x1B
request with `dat` "0000003C" followed by "00" and advances to phase 2;
phase 2 sends the retry-tracked 0x34 request with the fixed configuration
`dat` and advances to phase 3; phase 3 sends nothing and returns to idle;
under 5 seconds nothing changes. -/
theorem configure_charger_phases (now : Nat) (s : CPState)
    (hflag : s.check_message_response = false) :
    (s.last_message_timestamp + 5000 ≤ now →
      (s.charger_state = 1 → timers now s =
        { s with charger_state := 2, last_message_timestamp := now,
                 outbox := ⟨ADDR_CHARGER, ADDR_CP, 0x1B,
                   "0000003C".toList ++ "00".toList⟩ :: s.outbox }) ∧
      (s.charger_state = 2 → timers now s =
        { s with charger_state := 3, last_message_timestamp := now,
                 check_message_response := true,
                 last_message := ⟨ADDR_CHARGER, ADDR_CP, 0x34, configDat34⟩,
                 outbox := ⟨ADDR_CHARGER, ADDR_CP, 0x34, configDat34⟩ :: s.outbox }) ∧
      (s.charger_state = 3 → timers now s = { s with charger_state := 0 })) ∧
    (now < s.last_message_timestamp + 5000 → timers now s = s) := by
  constructor
  · intro hle
    have hns : ¬ now < s.last_message_timestamp + 5000 := by omega
    refine ⟨?_, ?_, ?_⟩
    · intro hcs
      simp [timers, hflag, configureCharger, hcs, hns, cpSend]
    · intro hcs
      simp [timers, hflag, configureCharger, hcs, hns, cpSend, configDat34]
    · intro hcs
      simp [timers, hflag, configureCharger, hcs, hns, cpSend]
  · intro hlt
    by_cases hcs : 0 < s.charger_state
    · simp [timers, hflag, configureCharger, hcs, hlt]
    · simp [timers, hflag, hcs]

/-- The initial 0x1E restart-registration broadcast sent by
`CP.__init__`. -/
def packet1E : Packet := ⟨ADDR_BROADCAST, ADDR_CP, 0x1E, []⟩

/-- A phase-1 actor state with the response check armed and an overdue
tracked message. -/
def stateC8 : CPState :=
  { charger_state := 1, last_message := packet1E, last_message_timestamp := 0,
    check_message_response := true, outbox := [] }

/-- C8 fails as stated: in phase 1 with 5 seconds elapsed but the
response check armed, `timers` retransmits the tracked message first,
which refreshes the shared timestamp, so `_configure_charger` does not
run: no 0x1B request is enqueued and the phase does not advance. -/
theorem configure_charger_phases_counterexample :
    stateC8.charger_state = 1 ∧
    stateC8.last_message_timestamp + 5000 ≤ 5000 ∧
    (timers 5000 stateC8).charger_state = 1 ∧
    (timers 5000 stateC8).outbox = [packet1E] ∧
    packet1E.cmd ≠ 0x1B := by decide

/-- C10: an untracked send (`_send` with `check_response` left false, as
for every reply built in `respond`) leaves `last_message` and the
response-check flag unchanged but refreshes the single send timestamp;
consequently, within 2 seconds of such a send a `timers` call changes
nothing (the pending retransmission is postponed), and within 5 seconds
of it the configuration state machine cannot advance the phase. -/
theorem untracked_send_postpones_timers (now now2 : Nat) (s : CPState) (p : Packet) :
    (cpSend now s p false).check_message_response = s.check_message_response ∧
    (cpSend now s p false).last_message = s.last_message ∧
    (cpSend now s p false).last_message_timestamp = now ∧
    (now2 < now + 2000 → timers now2 (cpSend now s p false) = cpSend now s p false) ∧
    (now2 < now + 5000 →
      (timers now2 (cpSend now s p false)).charger_state = s.charger_state) := by
  refine ⟨rfl, rfl, rfl, ?_, ?_⟩
  · intro hlt
    have h5 : now2 < now + 5000 := by omega
    by_cases hck : s.check_message_response
    · by_cases hcs : 0 < s.charger_state
      · simp [timers, cpSend, hck, hcs, checkResponse, configureCharger, hlt, h5]
      · simp [timers, cpSend, hck, hcs, checkResponse, configureCharger, hlt, h5]
    · by_cases hcs : 0 < s.charger_state
      · simp [timers, cpSend, hck, hcs, checkResponse, configureCharger, hlt, h5]
      · simp [timers, cpSend, hck, hcs, checkResponse, configureCharger, hlt, h5]
  · intro h5
    have h6 : now2 < now2 + 5000 := by omega
    by_cases hck : s.check_message_response
    · by_cases hre : now2 < now + 2000
      · by_cases hcs : 0 < s.charger_state
        · simp [timers, cpSend, hck, hre, hcs, checkResponse, configureCharger, h5, h6]
        · simp [timers, cpSend, hck, hre, hcs, checkResponse, configureCharger, h5, h6]
      · by_cases hcs : 0 < s.charger_state
        · simp [timers, cpSend, hck, hre, hcs, checkResponse, configureCharger, h5, h6]
        · simp [timers, cpSend, hck, hre, hcs, checkResponse, configureCharger, h5, h6]
    · by_cases hcs : 0 < s.charger_state
      · simp [timers, cpSend, hck, hcs, checkResponse, configureCharger, h5, h6]
      · simp [timers, cpSend, hck, hcs, checkResponse, configureCharger, h5, h6]

/-- A neutral idle actor state used to instantiate the witnesses. -/
def stateW : CPState :=
  { charger_state := 0, last_message := packet1E, last_message_timestamp := 0,
    check_message_response := false, outbox := [] }

/-- A concrete 0x22 authentication request carrying the auto-start card
number "000000AS" (card length field "08"). -/
def authMsg : Packet :=
  ⟨ADDR_BROADCAST, ADDR_CHARGER, 0x22, "0008000000AS00000000000000FFFF".toList⟩

theorem auth_request_response_witness :
    ((authMsg.dst = ADDR_BROADCAST ∨ authMsg.dst = ADDR_CP) ∧ authMsg.cmd = 0x22 ∧
      pyFromHex (pySlice authMsg.dat 2 4) = some 8) ∧
    (∃ t, respond 0 stateW authMsg = some t ∧
      t.outbox = ⟨authMsg.src, ADDR_CP, 0x22,
        (if pySlice authMsg.dat 4 (4 + 8) = "000000AS".toList
            ∨ pySlice authMsg.dat 4 (4 + 8) ∈ allowed_cards
         then "01".toList else "12".toList)
        ++ pyHexPad 2 8 ++ pyZeroPad22 (pySlice authMsg.dat 4 (4 + 8))
        ++ "FFFF".toList⟩ :: stateW.outbox) :=
  ⟨⟨by decide, by decide, by decide⟩,
    auth_request_response 0 stateW authMsg 8 (by decide) (by decide) (by decide)⟩

/-- A concrete 0x11 register request (serial "1234567"). -/
def regMsg : Packet :=
  ⟨ADDR_BROADCAST, 0x00, 0x11, "123456704090103".toList⟩

theorem register_request_response_witness :
    ((regMsg.dst = ADDR_BROADCAST ∨ regMsg.dst = ADDR_CP) ∧ regMsg.cmd = 0x11 ∧
      stateW.outbox = []) ∧
    (∃ t, respond 0 stateW regMsg = some t ∧ t.charger_state = 1 ∧
      t.outbox = [⟨regMsg.src, ADDR_CP, 0x11, pySlice regMsg.dat 0 7 ++ "0103".toList⟩]) :=
  ⟨⟨by decide, by decide, by decide⟩,
    register_request_response 0 stateW regMsg (by decide) (by decide) (by decide)⟩

/-- A concrete 0x6A charging-state request with state code "A7". -/
def csMsg : Packet := ⟨ADDR_CP, ADDR_CHARGER, 0x6A, "A700".toList⟩

theorem charging_state_ack_and_limit_witness :
    ((csMsg.dst = ADDR_BROADCAST ∨ csMsg.dst = ADDR_CP) ∧ csMsg.cmd = 0x6A) ∧
    (∃ t, respond 0 stateW csMsg = some t ∧
      (pySlice csMsg.dat 0 2 = "A7".toList →
        t.outbox = [⟨csMsg.src, ADDR_CP, 0x6B, "01003C003C003C003C".toList⟩,
                    ⟨csMsg.src, ADDR_CP, 0x6A, "AA00".toList⟩] ++ stateW.outbox ∧
        t.check_message_response = true ∧
        t.last_message = ⟨csMsg.src, ADDR_CP, 0x6B, "01003C003C003C003C".toList⟩) ∧
      (pySlice csMsg.dat 0 2 = "81".toList →
        t.outbox = [⟨csMsg.src, ADDR_CP, 0x6B, "01003C00A000A000A0".toList⟩,
                    ⟨csMsg.src, ADDR_CP, 0x6A, "AA00".toList⟩] ++ stateW.outbox ∧
        t.check_message_response = true ∧
        t.last_message = ⟨csMsg.src, ADDR_CP, 0x6B, "01003C00A000A000A0".toList⟩) ∧
      (pySlice csMsg.dat 0 2 ≠ "A7".toList → pySlice csMsg.dat 0 2 ≠ "81".toList →
        t.outbox = ⟨csMsg.src, ADDR_CP, 0x6A, "AA00".toList⟩ :: stateW.outbox ∧
        t.check_message_response = stateW.check_message_response)) :=
  ⟨⟨by decide, by decide⟩,
    charging_state_ack_and_limit 0 stateW csMsg (by decide) (by decide)⟩

theorem retransmission_exactly_when_overdue_witness :
    stateC8.check_message_response = true ∧
    ((stateC8.last_message_timestamp + 2000 ≤ 2001 →
      timers 2001 stateC8 = { stateC8 with outbox := stateC8.last_message :: stateC8.outbox,
                                           last_message_timestamp := 2001,
                                           check_message_response := true }) ∧
     (2001 < stateC8.last_message_timestamp + 2000 → timers 2001 stateC8 = stateC8)) :=
  ⟨by decide, retransmission_exactly_when_overdue 2001 stateC8 (by decide)⟩

/-- A phase-1 actor state with the response check not armed. -/
def stateC8b : CPState :=
  { charger_state := 1, last_message := packet1E, last_message_timestamp := 0,
    check_message_response := false, outbox := [] }

theorem configure_charger_phases_witness :
    stateC8b.check_message_response = false ∧
    ((stateC8b.last_message_timestamp + 5000 ≤ 5000 →
      (stateC8b.charger_state = 1 → timers 5000 stateC8b =
        { stateC8b with charger_state := 2, last_message_timestamp := 5000,
                        outbox := ⟨ADDR_CHARGER, ADDR_CP, 0x1B,
                          "0000003C".toList ++ "00".toList⟩ :: stateC8b.outbox }) ∧
      (stateC8b.charger_state = 2 → timers 5000 stateC8b =
        { stateC8b with charger_state := 3, last_message_timestamp := 5000,
                        check_message_response := true,
                        last_message := ⟨ADDR_CHARGER, ADDR_CP, 0x34, configDat34⟩,
                        outbox := ⟨ADDR_CHARGER, ADDR_CP, 0x34, configDat34⟩
                          :: stateC8b.outbox }) ∧
      (stateC8b.charger_state = 3 → timers 5000 stateC8b =
        { stateC8b with charger_state := 0 })) ∧
     (5000 < stateC8b.last_message_timestamp + 5000 → timers 5000 stateC8b = stateC8b)) :=
  ⟨by decide, configure_charger_phases 5000 stateC8b (by decide)⟩

theorem outbox_drained_in_insertion_order_witness :
    ((csMsg.dst = ADDR_BROADCAST ∨ csMsg.dst = ADDR_CP) ∧ csMsg.cmd = 0x6A ∧
      pySlice csMsg.dat 0 2 = "A7".toList ∧ stateW.outbox = []) ∧
    ((∀ ps : List Packet, drainOutbox (ps.foldl (fun box p => p :: box) []) = ps) ∧
      (respond 0 stateW csMsg).map (fun t => drainOutbox t.outbox) =
        some [⟨csMsg.src, ADDR_CP, 0x6A, "AA00".toList⟩,
              ⟨csMsg.src, ADDR_CP, 0x6B, "01003C003C003C003C".toList⟩]) :=
  ⟨⟨by decide, by decide, by decide, by decide⟩,
    outbox_drained_in_insertion_order 0 stateW csMsg (by decide) (by decide)
      (by decide) (by decide)⟩

theorem untracked_send_postpones_timers_witness :
    (cpSend 1000 stateC8 packet1E false).check_message_response
        = stateC8.check_message_response ∧
    (cpSend 1000 stateC8 packet1E false).last_message = stateC8.last_message ∧
    (cpSend 1000 stateC8 packet1E false).last_message_timestamp = 1000 ∧
    (1500 < 1000 + 2000 →
      timers 1500 (cpSend 1000 stateC8 packet1E false) = cpSend 1000 stateC8 packet1E false) ∧
    (1500 < 1000 + 5000 →
      (timers 1500 (cpSend 1000 stateC8 packet1E false)).charger_state
        = stateC8.charger_state) :=
  untracked_send_postpones_timers 1000 1500 stateC8 packet1E
